import Mathlib

/-!
Shallow embedding of `src/app.py` (a Flask service wrapping yt-dlp) and proofs
about it.  Python strings are modelled as Lean `String`/`List Char`; the
external yt-dlp backend, being nondeterministic network I/O, is modelled as an
oracle parameter; exceptions raised by it are modelled with `Except`.
-/

namespace YtApp

/-- The characters removed by `clean_filename` in app.py via
`re.sub(r'[<>:"/\\|?*]', '', filename)`. -/
def forbiddenChars : List Char := ['<', '>', ':', '"', '/', '\\', '|', '?', '*']

/-- Whether a character is in the forbidden set of `clean_filename`. -/
def isForbidden (c : Char) : Bool := forbiddenChars.contains c

/-- Whitespace characters stripped by Python `str.strip()`: the codepoints for
which CPython's `Py_UNICODE_ISSPACE` holds, namely U+0009-U+000D,
U+001C-U+0020, U+0085, U+00A0, U+1680, U+2000-U+200A, U+2028, U+2029, U+202F,
U+205F and U+3000. -/
def isPySpace (c : Char) : Bool :=
  (0x09 ≤ c.toNat && c.toNat ≤ 0x0d) ||
  (0x1c ≤ c.toNat && c.toNat ≤ 0x20) ||
  c.toNat == 0x85 || c.toNat == 0xa0 || c.toNat == 0x1680 ||
  (0x2000 ≤ c.toNat && c.toNat ≤ 0x200a) ||
  c.toNat == 0x2028 || c.toNat == 0x2029 || c.toNat == 0x202f ||
  c.toNat == 0x205f || c.toNat == 0x3000

/-- Python `str.strip()` over a character list: drop whitespace from both ends. -/
def stripList (l : List Char) : List Char :=
  ((l.dropWhile isPySpace).reverse.dropWhile isPySpace).reverse

/-- Body of `clean_filename` over a character list: remove the forbidden
characters, truncate to 50 characters (`filename[:50]`, applied only when the
length exceeds 50, which is the same as always taking 50), then strip
surrounding whitespace. -/
def cleanList (l : List Char) : List Char :=
  stripList ((l.filter (fun c => !isForbidden c)).take 50)

/-- `clean_filename` from app.py lines 142-148. -/
def clean_filename (s : String) : String := ⟨cleanList s.data⟩

/-! Helper lemmas about `stripList` and `cleanList`. -/

theorem stripList_sublist (l : List Char) : List.Sublist (stripList l) l := by
  have h1 : List.Sublist ((l.dropWhile isPySpace).reverse.dropWhile isPySpace)
      (l.dropWhile isPySpace).reverse := List.dropWhile_sublist _
  have h2 := h1.reverse
  simp only [List.reverse_reverse] at h2
  exact h2.trans (List.dropWhile_sublist _)

theorem cleanList_sublist (l : List Char) :
    List.Sublist (cleanList l) ((l.filter (fun c => !isForbidden c)).take 50) :=
  stripList_sublist _

theorem cleanList_length_le (l : List Char) : (cleanList l).length ≤ 50 :=
  le_trans (cleanList_sublist l).length_le
    (List.length_take_le 50 (l.filter (fun c => !isForbidden c)))

theorem cleanList_no_forbidden {l : List Char} {c : Char}
    (hc : c ∈ cleanList l) : isForbidden c = false := by
  have h1 : c ∈ (l.filter (fun c => !isForbidden c)).take 50 :=
    (cleanList_sublist l).subset hc
  have h2 : c ∈ l.filter (fun c => !isForbidden c) :=
    (List.take_sublist _ _).subset h1
  have h3 := List.of_mem_filter h2
  simpa using h3

/-- If the whole of `l` survives `dropWhile p`, so does any prefix of `l`. -/
theorem dropWhile_prefix_eq {α : Type} {p : α → Bool} {x u : List α}
    (hx : x.dropWhile p = x) (hu : u <+: x) : u.dropWhile p = u := by
  cases u with
  | nil => simp
  | cons c u' =>
    obtain ⟨t, ht⟩ := hu
    have hc : p c = false := by
      cases hpc : p c with
      | false => rfl
      | true =>
        exfalso
        subst ht
        rw [List.cons_append, List.dropWhile_cons_of_pos hpc] at hx
        have hlen := (List.dropWhile_sublist (l := u' ++ t) p).length_le
        rw [hx] at hlen
        simp at hlen
    rw [List.dropWhile_cons_of_neg (by simp [hc])]

theorem dropWhile_suffix_self {α : Type} (p : α → Bool) (l : List α) :
    l.dropWhile p <:+ l := by
  induction l with
  | nil => simp
  | cons a l ih =>
    rw [List.dropWhile_cons]
    cases hpa : p a with
    | true => simpa using ih.trans (List.suffix_cons a l)
    | false => simp

theorem stripList_idem (l : List Char) : stripList (stripList l) = stripList l := by
  have hxi : (l.dropWhile isPySpace).dropWhile isPySpace = l.dropWhile isPySpace :=
    List.dropWhile_idempotent _ _
  have hsuf : (l.dropWhile isPySpace).reverse.dropWhile isPySpace <:+
      (l.dropWhile isPySpace).reverse := dropWhile_suffix_self _ _
  have hpre := hsuf.reverse
  simp only [List.reverse_reverse] at hpre
  have hu : (stripList l).dropWhile isPySpace = stripList l :=
    dropWhile_prefix_eq hxi hpre
  show ((((stripList l).dropWhile isPySpace).reverse.dropWhile isPySpace).reverse) = stripList l
  rw [hu]
  show (((((l.dropWhile isPySpace).reverse.dropWhile isPySpace).reverse).reverse).dropWhile
      isPySpace).reverse = stripList l
  rw [List.reverse_reverse, List.dropWhile_idempotent]
  rfl

theorem mem_dropWhile_of_not {α : Type} {p : α → Bool} {c : α} (hc : p c = false) :
    ∀ {l : List α}, c ∈ l → c ∈ l.dropWhile p := by
  intro l
  induction l with
  | nil => intro h; exact absurd h (List.not_mem_nil c)
  | cons a l ih =>
    intro h
    cases hpa : p a with
    | true =>
      rw [List.dropWhile_cons_of_pos hpa]
      rcases List.mem_cons.mp h with h1 | h2
      · subst h1; rw [hpa] at hc; exact absurd hc (by simp)
      · exact ih h2
    | false =>
      rw [List.dropWhile_cons_of_neg (by simp [hpa])]
      exact h

theorem stripList_ne_nil {l : List Char} {c : Char}
    (hc : isPySpace c = false) (hmem : c ∈ l) : stripList l ≠ [] := by
  have h1 : c ∈ l.dropWhile isPySpace := mem_dropWhile_of_not hc hmem
  have h2 : c ∈ (l.dropWhile isPySpace).reverse := List.mem_reverse.mpr h1
  have h3 : c ∈ (l.dropWhile isPySpace).reverse.dropWhile isPySpace :=
    mem_dropWhile_of_not hc h2
  intro hnil
  have h4 : (l.dropWhile isPySpace).reverse.dropWhile isPySpace = [] :=
    List.reverse_eq_nil_iff.mp hnil
  rw [h4] at h3
  exact absurd h3 (List.not_mem_nil c)

theorem cleanList_idem (l : List Char) : cleanList (cleanList l) = cleanList l := by
  have h1 : (cleanList l).filter (fun c => !isForbidden c) = cleanList l :=
    List.filter_eq_self.mpr (fun a ha => by simp [cleanList_no_forbidden ha])
  have h2 : (cleanList l).take 50 = cleanList l :=
    List.take_of_length_le (cleanList_length_le l)
  show stripList (((cleanList l).filter (fun c => !isForbidden c)).take 50) = cleanList l
  rw [h1, h2]
  show stripList (stripList ((l.filter (fun c => !isForbidden c)).take 50)) = cleanList l
  rw [stripList_idem]
  rfl

/-! The cleanup sweeper.  No sweeper exists in `src/app.py`; the spec (section
4.4) describes one, so the sweep pass is modelled from the spec. -/

/-- A directory entry as seen by the sweeper: a name, a last-modified time in
seconds, and whether it is a regular file. -/
structure FileEntry where
  name : String
  mtime : Nat
  isRegular : Bool
deriving DecidableEq, Repr

/-- Modelled from the spec: the retention threshold of the cleanup sweeper,
one hour, in seconds. -/
def RETENTION_SECONDS : Nat := 60 * 60

/-- Modelled from the spec: the fixed sweep interval, five minutes, in
seconds. -/
def SWEEP_INTERVAL_SECONDS : Nat := 5 * 60

/-- Age of a file at time `now`: now minus last-modified time. -/
def fileAge (now : Nat) (f : FileEntry) : Nat := now - f.mtime

/-- Modelled from the spec: one sweep pass over the temp directory.  For every
regular file whose age exceeds the retention threshold, delete it; every other
entry is kept.  Returns the directory contents after the pass. -/
def sweepOnce (now : Nat) (files : List FileEntry) : List FileEntry :=
  files.filter (fun f => !(f.isRegular && decide (RETENTION_SECONDS < fileAge now f)))

/-! The HTTP endpoint layer and the download ladder.  `request.args.get` is
modelled as an `Option String` (absent parameter = `none`); Python truthiness
of a string (`if not url`) is `none` or the empty string. -/

/-- Python truthiness of an optional string: `False` for `None` and `""`. -/
def pyTruthy (s : Option String) : Bool :=
  match s with
  | none => false
  | some t => !(t == "")

/-- Raw metadata dictionary returned by `ydl.extract_info(url, download=False)`;
fields are optional as in the Python dict `info.get(...)`. -/
structure RawInfo where
  title : Option String
  description : Option String
  thumbnail : Option String
  duration : Option Nat
  uploader : Option String
  view_count : Option Nat

/-- The success payload built by `get_video_info` (app.py lines 51-59). -/
structure InfoPayload where
  title : String
  description : String
  thumbnail : String
  duration : Nat
  channel : String
  viewCount : Nat
deriving DecidableEq

/-- Result of `get_video_info`: the success dict or `{'success': False,
'error': msg}`. -/
inductive InfoResult where
  | ok (payload : InfoPayload)
  | err (msg : String)
deriving DecidableEq

/-- The JSON error body `{'success': ..., 'error': ...}`. -/
structure ErrorBody where
  success : Bool
  error : String
deriving DecidableEq

/-- `get_video_info` from app.py lines 42-65.  The external extractor call
`ydl.extract_info(url, download=False)` is an oracle `extract`; an exception
is an `Except.error` carrying `str(e)`. -/
def get_video_info (extract : String → Except String RawInfo) (url : String) :
    InfoResult :=
  match extract url with
  | .ok info =>
      .ok { title := info.title.getD "Unknown Title"
            description := info.description.getD ""
            thumbnail := info.thumbnail.getD ""
            duration := info.duration.getD 0
            channel := info.uploader.getD "Unknown Channel"
            viewCount := info.view_count.getD 0 }
  | .error e => .err e

/-- Response of the `/api/info` route: an HTTP status code paired with either
the 400 error body or the JSON-ified `get_video_info` result. -/
def video_info (extract : String → Except String RawInfo) (url : Option String) :
    Nat × (ErrorBody ⊕ InfoResult) :=
  if !pyTruthy url then
    (400, Sum.inl ⟨false, "URL parameter is required"⟩)
  else
    (200, Sum.inr (get_video_info extract (url.getD "")))

/-! The download ladder (app.py lines 67-140). -/

/-- Outcome of a successful `ydl.extract_info(url, download=True)` call as the
download functions consume it: the prepared filename
(`ydl.prepare_filename(info)`) and the optional title (`info.get('title')`). -/
structure YdlOutcome where
  filename : String
  title : Option String

/-- The yt-dlp options each download attempt passes to the backend, restricted
to the fields in which the two attempts differ. -/
structure YdlOpts where
  outtmpl : String
  format : String
  audioPostprocess : Bool
  preferredquality : Option String
  customHeaders : Bool
  retries : Nat
deriving DecidableEq

/-- The output template `f"/tmp/{unique_id}.%(ext)s"` shared by both download
attempts (app.py lines 70 and 108). -/
def output_template (unique_id : String) : String :=
  "/tmp/" ++ unique_id ++ ".%(ext)s"

/-- The temp directory created at startup (app.py line 18): `/tmp/downloads`. -/
def TEMP_DIR : String := "/tmp/downloads"

/-- Options of the primary attempt `download_video_alternative` (app.py lines
73-85): custom options plus the output template, with format selection and mp3
post-processing by `format_type`. -/
def primaryOpts (unique_id format_type : String) : YdlOpts :=
  { outtmpl := output_template unique_id
    format := if format_type == "mp3" then "bestaudio/best"
              else "best[height<=480]/best[height<=360]/worst"
    audioPostprocess := format_type == "mp3"
    preferredquality := if format_type == "mp3" then some "192" else none
    customHeaders := true
    retries := 10 }

/-- Options of the fallback attempt `download_video_simple_fallback` (app.py
lines 110-120): minimal options, lowest quality, no custom headers. -/
def fallbackOpts (unique_id format_type : String) : YdlOpts :=
  { outtmpl := output_template unique_id
    format := if format_type == "mp4" then "worst" else "worstaudio/worst"
    audioPostprocess := format_type == "mp3"
    preferredquality := none
    customHeaders := false
    retries := 0 }

/-- Python `s.rsplit('.', 1)[0]`: everything before the last dot, or the whole
string when there is no dot. -/
def rsplitDotBase (s : String) : String :=
  match s.data.reverse.dropWhile (fun c => !(c == '.')) with
  | [] => s
  | _ :: rest => ⟨rest.reverse⟩

/-- Successful download result `{'success': True, 'file_path': ...,
'title': ...}`. -/
structure DlOk where
  file_path : String
  title : String
deriving DecidableEq

/-- Result of a download attempt: the success dict or `{'success': False,
'error': msg}`. -/
inductive DlResult where
  | ok (r : DlOk)
  | err (msg : String)
deriving DecidableEq

/-- Python `s.endswith(suffix)` over the embedded strings. -/
def endswith (s suffix : String) : Bool :=
  suffix.data.isSuffixOf s.data

/-- The shared result shaping of both download attempts (app.py lines 90-99
and 125-134): fix the extension to `.mp3` for audio downloads whose prepared
filename does not already end in `.mp3`, and clean the title (defaulting to
`'download'` when the backend supplies none). -/
def attemptResult (format_type : String) (out : YdlOutcome) : DlResult :=
  let downloaded_file := out.filename
  let downloaded_file :=
    if format_type == "mp3" && !endswith downloaded_file ".mp3" then
      rsplitDotBase downloaded_file ++ ".mp3"
    else downloaded_file
  .ok ⟨downloaded_file, clean_filename (out.title.getD "download")⟩

/-- `download_video_simple_fallback` from app.py lines 105-140.  `ydl` is the
backend oracle (a function of the options and the url), `unique_id` the value
of `str(uuid.uuid4())` generated by this call. -/
def download_video_simple_fallback (ydl : YdlOpts → String → Except String YdlOutcome)
    (unique_id url format_type : String) : DlResult :=
  match ydl (fallbackOpts unique_id format_type) url with
  | .ok out => attemptResult format_type out
  | .error e =>
      .err ("Download failed: " ++ e ++ ". Railway IP may be blocked by YouTube.")

/-- `download_video_alternative` from app.py lines 67-103, the primary rung of
the ladder.  `uuid1` is the identifier generated by this call, `uuid2` the one
the fallback generates when it is invoked. -/
def download_video_alternative (ydl : YdlOpts → String → Except String YdlOutcome)
    (uuid1 uuid2 url format_type : String) : DlResult :=
  match ydl (primaryOpts uuid1 format_type) url with
  | .ok out => attemptResult format_type out
  | .error _ => download_video_simple_fallback ydl uuid2 url format_type

/-- Attachment filename construction at app.py line 210:
`f"{result['title']}.{format_type}"`. -/
def attachment_filename (title format_type : String) : String :=
  title ++ "." ++ format_type

/-- Response of the `/api/download` route. -/
inductive DlResponse where
  | json (status : Nat) (body : ErrorBody)
  | file (file_path download_name mimetype : String)
deriving DecidableEq

/-- The `/api/download` route from app.py lines 182-223.  `ladder` abstracts
`download_video_alternative` applied to a url and format (so the route's
behavior can be stated for an arbitrary ladder outcome); `send` models
`send_file`, which may raise (file missing, permissions), modelled as
`Except.error str(e)`. -/
def download_route (ladder : String → String → DlResult)
    (send : String → Except String Unit)
    (url format_arg : Option String) : DlResponse :=
  let format_type := format_arg.getD "mp4"
  if !pyTruthy url then
    .json 400 ⟨false, "URL parameter is required"⟩
  else if !(format_type == "mp4" || format_type == "mp3") then
    .json 400 ⟨false, "Format must be either mp4 or mp3"⟩
  else
    match ladder (url.getD "") format_type with
    | .err e => .json 500 ⟨false, e⟩
    | .ok r =>
        match send r.file_path with
        | .ok _ =>
            .file r.file_path (attachment_filename r.title format_type)
              (if format_type == "mp4" then "video/mp4" else "audio/mpeg")
        | .error e => .json 500 ⟨false, "Server error: " ++ e⟩

/-! Further helper lemmas. -/

theorem output_template_inj {u1 u2 : String}
    (h : output_template u1 = output_template u2) : u1 = u2 := by
  have hd := String.ext_iff.mp h
  simp only [output_template, String.data_append] at hd
  have hd2 := List.append_cancel_right hd
  have hd3 := List.append_cancel_left hd2
  exact String.ext hd3

theorem endswith_append_mp3 (x : String) : endswith (x ++ ".mp3") ".mp3" = true := by
  have hsuf : (".mp3" : String).data <:+ (x ++ (".mp3" : String)).data := by
    rw [String.data_append]
    exact List.suffix_append _ _
  simp [endswith]

theorem attemptResult_mp3 (out : YdlOutcome) :
    ∃ r, attemptResult "mp3" out = .ok r ∧ endswith r.file_path ".mp3" = true ∧
      (endswith out.filename ".mp3" = false →
        r.file_path = rsplitDotBase out.filename ++ ".mp3") := by
  cases hend : endswith out.filename ".mp3" with
  | true =>
      refine ⟨⟨out.filename, clean_filename (out.title.getD "download")⟩, ?_, hend, ?_⟩
      · simp [attemptResult, hend]
      · intro hfalse; simp at hfalse
  | false =>
      refine ⟨⟨rsplitDotBase out.filename ++ ".mp3",
        clean_filename (out.title.getD "download")⟩, ?_, ?_, fun _ => rfl⟩
      · simp [attemptResult, hend]
      · exact endswith_append_mp3 _

/-! Theorems for the claims. -/

/-- C1: after one sweep pass over the temp directory at time `now`, an entry
survives exactly when it is not a regular file whose age exceeds the retention
threshold of 60 minutes; every file whose age is within the threshold is
untouched (its multiplicity in the directory is unchanged); and the sweep
interval is the fixed 5 minutes.  (The sweeper is modelled from the spec: no
sweeper exists in src/app.py.) -/
theorem C1_sweep_exact (now : Nat) (files : List FileEntry) (f : FileEntry)
    (hf : f ∈ files) :
    (f ∈ sweepOnce now files ↔
        ¬(f.isRegular = true ∧ RETENTION_SECONDS < fileAge now f)) ∧
      (fileAge now f ≤ RETENTION_SECONDS →
        (sweepOnce now files).count f = files.count f) ∧
      SWEEP_INTERVAL_SECONDS = 5 * 60 := by
  refine ⟨?_, ?_, rfl⟩
  · rw [sweepOnce, List.mem_filter]
    constructor
    · rintro ⟨-, hcond⟩ ⟨hreg, hage⟩
      simp [hreg, hage] at hcond
    · intro hcond
      refine ⟨hf, ?_⟩
      by_cases hreg : f.isRegular = true
      · have hnot : ¬(RETENTION_SECONDS < fileAge now f) := fun hlt => hcond ⟨hreg, hlt⟩
        simp [hreg, hnot]
      · simp [Bool.eq_false_iff.mpr hreg]
  · intro hage
    have hp : (!(f.isRegular && decide (RETENTION_SECONDS < fileAge now f))) = true := by
      have hnot : ¬(RETENTION_SECONDS < fileAge now f) := not_lt.mpr hage
      simp [hnot]
    rw [sweepOnce]
    exact List.count_filter
      (p := fun g => !(g.isRegular && decide (RETENTION_SECONDS < fileAge now g)))
      (a := f) (l := files) hp

/-- C1 witness: the spec scenario with files aged 30, 61 and 120 minutes at a
retention threshold of 60 minutes, instantiated at the 30-minute file. -/
theorem C1_sweep_exact_witness :
    ((⟨"f30", 5400, true⟩ : FileEntry) ∈
        sweepOnce 7200 [⟨"f30", 5400, true⟩, ⟨"f61", 3540, true⟩, ⟨"f120", 0, true⟩] ↔
        ¬((⟨"f30", 5400, true⟩ : FileEntry).isRegular = true ∧
          RETENTION_SECONDS < fileAge 7200 ⟨"f30", 5400, true⟩)) ∧
      (fileAge 7200 ⟨"f30", 5400, true⟩ ≤ RETENTION_SECONDS →
        (sweepOnce 7200 [⟨"f30", 5400, true⟩, ⟨"f61", 3540, true⟩,
            ⟨"f120", 0, true⟩]).count ⟨"f30", 5400, true⟩ =
          ([⟨"f30", 5400, true⟩, ⟨"f61", 3540, true⟩,
            ⟨"f120", 0, true⟩] : List FileEntry).count ⟨"f30", 5400, true⟩) ∧
      SWEEP_INTERVAL_SECONDS = 5 * 60 :=
  C1_sweep_exact 7200 [⟨"f30", 5400, true⟩, ⟨"f61", 3540, true⟩, ⟨"f120", 0, true⟩]
    ⟨"f30", 5400, true⟩ (by decide)

/-- C2: when the url parameter is absent or empty, /api/info and /api/download
both return HTTP 400 with the JSON body success=false and an error message,
and the result does not depend on the extractor, ladder or send oracles: the
extractor is never invoked. -/
theorem C2_missing_url (extract extract' : String → Except String RawInfo)
    (ladder ladder' : String → String → DlResult)
    (send send' : String → Except String Unit)
    (format_arg url : Option String)
    (h : url = none ∨ url = some "") :
    video_info extract url = (400, Sum.inl ⟨false, "URL parameter is required"⟩) ∧
      download_route ladder send url format_arg =
        .json 400 ⟨false, "URL parameter is required"⟩ ∧
      video_info extract url = video_info extract' url ∧
      download_route ladder send url format_arg =
        download_route ladder' send' url format_arg := by
  have hfalse : pyTruthy url = false := by
    rcases h with h | h <;> subst h <;> rfl
  refine ⟨?_, ?_, ?_, ?_⟩ <;> simp [video_info, download_route, hfalse]

/-- C2 witness: the concrete absent-url request against dummy oracles. -/
theorem C2_missing_url_witness :
    video_info (fun _ => .error "x") none =
        (400, Sum.inl ⟨false, "URL parameter is required"⟩) ∧
      download_route (fun _ _ => .err "d") (fun _ => .ok ()) none (some "mp4") =
        .json 400 ⟨false, "URL parameter is required"⟩ ∧
      video_info (fun _ => .error "x") none = video_info (fun _ => .error "y") none ∧
      download_route (fun _ _ => .err "d") (fun _ => .ok ()) none (some "mp4") =
        download_route (fun _ _ => .err "e") (fun _ => .error "s") none (some "mp4") :=
  C2_missing_url (fun _ => .error "x") (fun _ => .error "y")
    (fun _ _ => .err "d") (fun _ _ => .err "e")
    (fun _ => .ok ()) (fun _ => .error "s") (some "mp4") none (Or.inl rfl)

/-- C3: a format parameter present but outside {mp4, mp3} makes /api/download
return HTTP 400 with a JSON error body, independently of the ladder and send
oracles (so before any network call or download attempt); an absent format
parameter behaves exactly as format=mp4. -/
theorem C3_format_validation (ladder ladder' : String → String → DlResult)
    (send send' : String → Except String Unit) (url : Option String) (fmt : String)
    (h1 : fmt ≠ "mp4") (h2 : fmt ≠ "mp3") :
    (∃ e, download_route ladder send url (some fmt) = .json 400 ⟨false, e⟩) ∧
      download_route ladder send url (some fmt) =
        download_route ladder' send' url (some fmt) ∧
      download_route ladder send url none = download_route ladder send url (some "mp4") := by
  have hf : (fmt == "mp4" || fmt == "mp3") = false := by
    simp [h1, h2]
  cases hurl : pyTruthy url with
  | false =>
      exact ⟨⟨"URL parameter is required", by simp [download_route, hurl]⟩,
        by simp [download_route, hurl], rfl⟩
  | true =>
      exact ⟨⟨"Format must be either mp4 or mp3", by simp [download_route, hurl, hf]⟩,
        by simp [download_route, hurl, hf], rfl⟩

/-- C3 witness: the concrete request with format=avi against dummy oracles. -/
theorem C3_format_validation_witness :
    (∃ e, download_route (fun _ _ => .err "d") (fun _ => .ok ())
        (some "http://u") (some "avi") = .json 400 ⟨false, e⟩) ∧
      download_route (fun _ _ => .err "d") (fun _ => .ok ())
          (some "http://u") (some "avi") =
        download_route (fun _ _ => .err "e") (fun _ => .error "s")
          (some "http://u") (some "avi") ∧
      download_route (fun _ _ => .err "d") (fun _ => .ok ()) (some "http://u") none =
        download_route (fun _ _ => .err "d") (fun _ => .ok ())
          (some "http://u") (some "mp4") :=
  C3_format_validation (fun _ _ => .err "d") (fun _ _ => .err "e")
    (fun _ => .ok ()) (fun _ => .error "s") (some "http://u") "avi"
    (by decide) (by decide)

/-- C4: for every input, clean_filename returns a string of length at most 50
containing none of the forbidden characters. -/
theorem C4_clean_filename_safe (s : String) :
    (clean_filename s).length ≤ 50 ∧
      ∀ c, c ∈ (clean_filename s).data → isForbidden c = false :=
  ⟨cleanList_length_le s.data, fun _ hc => cleanList_no_forbidden hc⟩

/-- C4 witness: the bound and character check at a concrete input. -/
theorem C4_clean_filename_safe_witness :
    (clean_filename "ab<cd:e/f ").length ≤ 50 ∧
      ∀ c, c ∈ (clean_filename "ab<cd:e/f ").data → isForbidden c = false :=
  C4_clean_filename_safe "ab<cd:e/f "

/-- C5: clean_filename is idempotent. -/
theorem C5_clean_filename_idem (s : String) :
    clean_filename (clean_filename s) = clean_filename s := by
  have hdata : (clean_filename s).data = cleanList s.data := rfl
  show (⟨cleanList (clean_filename s).data⟩ : String) = ⟨cleanList s.data⟩
  rw [hdata, cleanList_idem]

/-- C6 as stated is false: the input " " is non-empty and its only character
is outside the forbidden set, yet clean_filename returns the empty string; and
the downstream filename construction performs no fallback substitution: an
all-forbidden title "<>" sanitizes to "" and yields the attachment filename
".mp4", not "download.mp4". -/
theorem C6_counterexample :
    clean_filename " " = "" ∧ (" " : String) ≠ "" ∧ isForbidden ' ' = false ∧
      clean_filename "<>" = "" ∧
      attachment_filename (clean_filename "<>") "mp4" = ".mp4" ∧
      attachment_filename (clean_filename "<>") "mp4" ≠ "download.mp4" := by
  refine ⟨?_, ?_, ?_, ?_, ?_, ?_⟩ <;> decide

/-- C6 amended: clean_filename returns a non-empty string whenever the first
50 characters that survive the removal of forbidden characters include at
least one non-whitespace character (an all-whitespace or all-forbidden input
may sanitize to empty); the downstream filename construction substitutes no
fallback name, so an empty sanitized title yields the filename ".<format>". -/
theorem C6_amended_nonempty (s : String)
    (h : ∃ c, c ∈ (s.data.filter (fun c => !isForbidden c)).take 50 ∧
      isPySpace c = false) :
    clean_filename s ≠ "" ∧ attachment_filename "" "mp4" = ".mp4" := by
  obtain ⟨c, hmem, hsp⟩ := h
  refine ⟨?_, rfl⟩
  intro hempty
  have hdata : cleanList s.data = [] := congrArg String.data hempty
  exact stripList_ne_nil hsp hmem hdata

/-- C6 amended witness: the input "a" sanitizes to a non-empty string. -/
theorem C6_amended_nonempty_witness :
    clean_filename "a" ≠ "" ∧ attachment_filename "" "mp4" = ".mp4" :=
  C6_amended_nonempty "a" ⟨'a', by decide, by decide⟩

/-- C7: if the primary download attempt fails, the ladder's result is exactly
the fallback's result computed with the fallback's own identifier; distinct
identifiers give distinct output templates (the primary attempt's output path
is never reused); and if the fallback also fails, the ladder returns the
single failure result whose message carries the IP-blocking hint — a
constructor with no file path, not a partial file. -/
theorem C7_fallback_ladder (ydl : YdlOpts → String → Except String YdlOutcome)
    (uuid1 uuid2 url format_type e1 : String)
    (hfail : ydl (primaryOpts uuid1 format_type) url = .error e1) :
    download_video_alternative ydl uuid1 uuid2 url format_type =
        download_video_simple_fallback ydl uuid2 url format_type ∧
      (uuid1 ≠ uuid2 →
        (fallbackOpts uuid2 format_type).outtmpl ≠
          (primaryOpts uuid1 format_type).outtmpl) ∧
      (∀ e2, ydl (fallbackOpts uuid2 format_type) url = .error e2 →
        download_video_alternative ydl uuid1 uuid2 url format_type =
          .err ("Download failed: " ++ e2 ++
            ". Railway IP may be blocked by YouTube.")) := by
  have hstep : download_video_alternative ydl uuid1 uuid2 url format_type =
      download_video_simple_fallback ydl uuid2 url format_type := by
    rw [download_video_alternative, hfail]
  refine ⟨hstep, ?_, ?_⟩
  · intro hne heq
    exact hne (output_template_inj heq.symm)
  · intro e2 hfail2
    rw [hstep, download_video_simple_fallback, hfail2]

/-- C7 witness: both attempts fail against an always-failing backend; the
ladder result is the fallback's, the output templates differ, and the final
failure carries the IP-blocking hint. -/
theorem C7_fallback_ladder_witness :
    download_video_alternative (fun _ _ => .error "403") "id1" "id2" "http://u" "mp4" =
        download_video_simple_fallback (fun _ _ => .error "403") "id2" "http://u" "mp4" ∧
      (fallbackOpts "id2" "mp4").outtmpl ≠ (primaryOpts "id1" "mp4").outtmpl ∧
      download_video_alternative (fun _ _ => .error "403") "id1" "id2" "http://u" "mp4" =
        .err ("Download failed: " ++ "403" ++ ". Railway IP may be blocked by YouTube.") :=
  ⟨(C7_fallback_ladder (fun _ _ => .error "403") "id1" "id2" "http://u" "mp4"
      "403" rfl).1,
    (C7_fallback_ladder (fun _ _ => .error "403") "id1" "id2" "http://u" "mp4"
      "403" rfl).2.1 (by decide),
    (C7_fallback_ladder (fun _ _ => .error "403") "id1" "id2" "http://u" "mp4"
      "403" rfl).2.2 "403" rfl⟩

/-- C8 divergence: the download attempts write via the output template into
/tmp, while the temp directory created at startup is /tmp/downloads; the
attempts' output paths are not under TEMP_DIR. -/
theorem C8_output_not_in_temp_dir :
    (primaryOpts "u123" "mp4").outtmpl = "/tmp/u123.%(ext)s" ∧
      (fallbackOpts "u123" "mp3").outtmpl = "/tmp/u123.%(ext)s" ∧
      TEMP_DIR = "/tmp/downloads" ∧
      (output_template "u123").data.take (TEMP_DIR ++ "/").data.length ≠
        (TEMP_DIR ++ "/").data := by
  refine ⟨rfl, rfl, rfl, ?_⟩
  decide

/-- C9: with a non-empty url present, /api/info returns HTTP 200 carrying the
result of get_video_info verbatim; extraction success yields the success
payload (with defaults for missing fields), extraction failure yields the
success=false error payload — in both cases the status is 200. -/
theorem C9_info_always_200 (extract : String → Except String RawInfo) (u : String)
    (hu : u ≠ "") :
    video_info extract (some u) = (200, Sum.inr (get_video_info extract u)) ∧
      (∀ info, extract u = .ok info →
        get_video_info extract u = .ok
          { title := info.title.getD "Unknown Title"
            description := info.description.getD ""
            thumbnail := info.thumbnail.getD ""
            duration := info.duration.getD 0
            channel := info.uploader.getD "Unknown Channel"
            viewCount := info.view_count.getD 0 }) ∧
      (∀ e, extract u = .error e → get_video_info extract u = .err e) := by
  have htr : pyTruthy (some u) = true := by
    simp [pyTruthy, hu]
  refine ⟨?_, ?_, ?_⟩
  · simp [video_info, htr]
  · intro info hok
    rw [get_video_info, hok]
  · intro e herr
    rw [get_video_info, herr]

/-- C9 witness: a stub extractor returning title "Test" and duration 42 at a
concrete url. -/
theorem C9_info_always_200_witness :
    video_info (fun _ => .ok ⟨some "Test", none, none, some 42, none, none⟩)
        (some "https://example.com/video123") =
      (200, Sum.inr (get_video_info
        (fun _ => .ok ⟨some "Test", none, none, some 42, none, none⟩)
        "https://example.com/video123")) ∧
      (∀ info, (fun (_ : String) =>
          (.ok ⟨some "Test", none, none, some 42, none, none⟩ :
            Except String RawInfo)) "https://example.com/video123" = .ok info →
        get_video_info (fun _ => .ok ⟨some "Test", none, none, some 42, none, none⟩)
            "https://example.com/video123" = .ok
          { title := info.title.getD "Unknown Title"
            description := info.description.getD ""
            thumbnail := info.thumbnail.getD ""
            duration := info.duration.getD 0
            channel := info.uploader.getD "Unknown Channel"
            viewCount := info.view_count.getD 0 }) ∧
      (∀ e, (fun (_ : String) =>
          (.ok ⟨some "Test", none, none, some 42, none, none⟩ :
            Except String RawInfo)) "https://example.com/video123" = .error e →
        get_video_info (fun _ => .ok ⟨some "Test", none, none, some 42, none, none⟩)
            "https://example.com/video123" = .err e) :=
  C9_info_always_200 (fun _ => .ok ⟨some "Test", none, none, some 42, none, none⟩)
    "https://example.com/video123" (by decide)

/-- C10: for a successful mp3 download, both the primary and the fallback
attempt return a file_path that ends in ".mp3"; when the prepared filename did
not already end in ".mp3", its extension is replaced by ".mp3". -/
theorem C10_mp3_extension (ydl : YdlOpts → String → Except String YdlOutcome)
    (uuid1 uuid2 url : String) (out : YdlOutcome) :
    (ydl (primaryOpts uuid1 "mp3") url = .ok out →
      ∃ r, download_video_alternative ydl uuid1 uuid2 url "mp3" = .ok r ∧
        endswith r.file_path ".mp3" = true ∧
        (endswith out.filename ".mp3" = false →
          r.file_path = rsplitDotBase out.filename ++ ".mp3")) ∧
    (ydl (fallbackOpts uuid2 "mp3") url = .ok out →
      ∃ r, download_video_simple_fallback ydl uuid2 url "mp3" = .ok r ∧
        endswith r.file_path ".mp3" = true ∧
        (endswith out.filename ".mp3" = false →
          r.file_path = rsplitDotBase out.filename ++ ".mp3")) := by
  constructor
  · intro hok
    obtain ⟨r, hr, hend, hrepl⟩ := attemptResult_mp3 out
    exact ⟨r, by rw [download_video_alternative, hok]; exact hr, hend, hrepl⟩
  · intro hok
    obtain ⟨r, hr, hend, hrepl⟩ := attemptResult_mp3 out
    exact ⟨r, by rw [download_video_simple_fallback, hok]; exact hr, hend, hrepl⟩

/-- C10 witness: a backend that prepares the filename "/tmp/id1.webm" for an
audio download; the returned file_path is "/tmp/id1.mp3". -/
theorem C10_mp3_extension_witness :
    ((fun (_ : YdlOpts) (_ : String) =>
        (.ok ⟨"/tmp/id1.webm", some "T"⟩ : Except String YdlOutcome))
          (primaryOpts "id1" "mp3") "http://u" = .ok ⟨"/tmp/id1.webm", some "T"⟩ →
      ∃ r, download_video_alternative
          (fun _ _ => .ok ⟨"/tmp/id1.webm", some "T"⟩) "id1" "id2" "http://u" "mp3" =
            .ok r ∧
        endswith r.file_path ".mp3" = true ∧
        (endswith ("/tmp/id1.webm" : String) ".mp3" = false →
          r.file_path = rsplitDotBase "/tmp/id1.webm" ++ ".mp3")) ∧
    ((fun (_ : YdlOpts) (_ : String) =>
        (.ok ⟨"/tmp/id1.webm", some "T"⟩ : Except String YdlOutcome))
          (fallbackOpts "id2" "mp3") "http://u" = .ok ⟨"/tmp/id1.webm", some "T"⟩ →
      ∃ r, download_video_simple_fallback
          (fun _ _ => .ok ⟨"/tmp/id1.webm", some "T"⟩) "id2" "http://u" "mp3" = .ok r ∧
        endswith r.file_path ".mp3" = true ∧
        (endswith ("/tmp/id1.webm" : String) ".mp3" = false →
          r.file_path = rsplitDotBase "/tmp/id1.webm" ++ ".mp3")) :=
  C10_mp3_extension (fun _ _ => .ok ⟨"/tmp/id1.webm", some "T"⟩)
    "id1" "id2" "http://u" ⟨"/tmp/id1.webm", some "T"⟩

end YtApp
